import Mathlib

/-!
Verification of the travel-planning agent repository.

The development shallowly embeds the repository's code:
* the tool-call confirmation gate (reconciliation of pending tool calls
  against an approve/reject decision table),
* the travel service (`src/services/travel.ts`): location resolution,
  ISO-8601 duration parsing, flight/hotel search with mock fallback,
  offer mapping and budget estimation.

External effects (HTTP fetches, the clock) are modelled as explicit
environment records carrying the responses the code would observe.
JavaScript numbers are modelled as rationals, machine-level concerns
(NaN, overflow) do not arise for the checked properties.
-/

namespace AgentsDemo

/-! Section: the confirmation gate (tool-call reconciliation). -/

/-- Decision recorded by the user for a confirmation-required tool call. -/
inductive Decision where
  | approved
  | rejected
deriving DecidableEq, Repr

/-- A tool call present in the conversation: identifier, tool name,
original arguments (opaque), and the recorded result if any. -/
structure ToolCall where
  ident : String
  name : String
  args : String
  result : Option String
deriving DecidableEq, Repr

/-- Keys of the `executions` table in `tools.ts`: the tools declared
without an `execute` function, hence requiring human confirmation. -/
def confirmationToolNames : List String :=
  ["getWeatherInformation", "bookFlight", "bookHotel"]

/-- A tool requires confirmation exactly when its side-effecting
implementation lives in the `executions` table. -/
def requiresConfirmation (name : String) : Bool :=
  confirmationToolNames.contains name

/-- Fixed cancellation payload recorded for a rejected call. -/
def deniedResult : String := "user denied"

/-- Modelled from the spec: the per-call step of `processToolCalls`
(`src/utils.ts`, not present under `src/`; only its caller in the chat
agent is). Following section 4.2 of the spec: a call that does not
require confirmation, or that already carries a recorded result, is left
untouched; otherwise the decision table is consulted by call identifier:
no decision leaves the call pending, an approval invokes the gated
operation on the call's original arguments and records its result, a
rejection records the fixed denial payload without invoking anything.
The second component reports the identifier of the invoked operation,
if any. -/
def reconcileCall (decisions : String → Option Decision)
    (gated : ToolCall → String) (c : ToolCall) : ToolCall × Option String :=
  if requiresConfirmation c.name = true ∧ c.result = none then
    match decisions c.ident with
    | none => (c, none)
    | some Decision.approved => ({ c with result := some (gated c) }, some c.ident)
    | some Decision.rejected => ({ c with result := some deniedResult }, none)
  else (c, none)

/-- Modelled from the spec: one reconciliation pass of `processToolCalls`
over the whole conversation. Returns the updated calls and the list of
identifiers whose gated operation was invoked during the pass. -/
def processToolCalls (decisions : String → Option Decision)
    (gated : ToolCall → String) (calls : List ToolCall) :
    List ToolCall × List String :=
  (calls.map fun c => (reconcileCall decisions gated c).1,
   calls.filterMap fun c => (reconcileCall decisions gated c).2)

/-- Repeated reconciliation: `n` passes over the same conversation with
the same decision table, accumulating all invocations. -/
def runPasses (decisions : String → Option Decision)
    (gated : ToolCall → String) : Nat → List ToolCall → List ToolCall × List String
  | 0, calls => (calls, [])
  | Nat.succ n, calls =>
    ((runPasses decisions gated n (processToolCalls decisions gated calls).1).1,
     (processToolCalls decisions gated calls).2 ++
       (runPasses decisions gated n (processToolCalls decisions gated calls).1).2)

/-- Test fixture: a decision table approving call "tc-1". -/
def gateDecisionsW : String → Option Decision :=
  fun i => if i = "tc-1" then some Decision.approved else none

/-- Test fixture: a gated executor. -/
def gateExecW : ToolCall → String := fun c => "booked:" ++ c.args

/-- Test fixture: one pending bookFlight call and one rejected-decision
bookHotel call. -/
def gateCallsW : List ToolCall :=
  [{ ident := "tc-1", name := "bookFlight", args := "FL-1", result := none },
   { ident := "tc-2", name := "bookHotel", args := "HT-1", result := none }]

/-- Test fixture: a decision table rejecting "tc-2" and silent on "tc-1". -/
def gateDecisionsRejW : String → Option Decision :=
  fun i => if i = "tc-2" then some Decision.rejected else none

/-! Section: ISO-8601 duration parsing (`parseISODurationToMinutes`).

The source uses the JavaScript regular expression
`/P(?:\d+Y)?(?:\d+M)?(?:\d+D)?T(?:(\d+)H)?(?:(\d+)M)?/i` with `exec`,
which finds the leftmost match. The embedding below reproduces the
matcher: at each start position the pattern requires `P`, three optional
non-capturing groups of digits followed by `Y`, `M`, `D`, a mandatory
`T`, then two optional capturing groups of digits followed by `H` and
`M`. Greedy digit runs can only ever stop right before the group's
letter (a letter is not a digit), so each optional group either consumes
its maximal digit run plus the letter or participates not at all; the
matcher backtracks through those two alternatives, most recent choice
first, exactly as the regex engine does. After the `T` nothing in the
pattern can fail, so the greedy choices of the two capturing groups are
final. -/

/-- Split a character list into its maximal leading digit run and the rest. -/
def takeDigits : List Char → List Char × List Char
  | [] => ([], [])
  | c :: cs =>
    if c.isDigit then ((c :: (takeDigits cs).1), (takeDigits cs).2)
    else ([], c :: cs)

/-- Decimal value of a digit run, as `parseInt(‥, 10)` computes it. -/
def natOfDigits (ds : List Char) : Nat :=
  ds.foldl (fun n c => n * 10 + (c.toNat - 48)) 0

/-- One optional group `(?:\d+X)?` of the duration pattern, with `X` the
upper- or lower-case letter (the regex carries the `i` flag). Returns the
captured value and the remaining input when the group participates, and
`(none, cs)` when it matches the empty alternative. -/
def groupNum (up low : Char) (cs : List Char) : Option Nat × List Char :=
  match takeDigits cs with
  | (ds, r :: rs) =>
    if ds ≠ [] ∧ (r = up ∨ r = low) then (some (natOfDigits ds), rs)
    else (none, cs)
  | (_, []) => (none, cs)

/-- Consume the mandatory `T` (case-insensitively). -/
def tryT : List Char → Option (List Char)
  | [] => none
  | c :: cs => if c = 'T' ∨ c = 't' then some cs else none

/-- After the optional `(?:\d+D)?` group: try its greedy alternative, then
its empty alternative, each followed by the mandatory `T`. -/
def afterD (r2 : List Char) : Option (List Char) :=
  if (groupNum 'D' 'd' r2).1.isSome then
    match tryT (groupNum 'D' 'd' r2).2 with
    | some r4 => some r4
    | none => tryT r2
  else tryT r2

/-- After the optional `(?:\d+M)?` date group. -/
def afterM (r1 : List Char) : Option (List Char) :=
  if (groupNum 'M' 'm' r1).1.isSome then
    match afterD (groupNum 'M' 'm' r1).2 with
    | some r4 => some r4
    | none => afterD r1
  else afterD r1

/-- Match the part of the pattern between the leading `P` and the `T`,
returning the input remaining after the `T`. -/
def findT (cs1 : List Char) : Option (List Char) :=
  if (groupNum 'Y' 'y' cs1).1.isSome then
    match afterM (groupNum 'Y' 'y' cs1).2 with
    | some r4 => some r4
    | none => afterM cs1
  else afterM cs1

/-- Match the full duration pattern at one start position. Returns the two
captured groups (hours, minutes); `none` in a component means the group
did not participate in the match. The two capturing groups are read off
greedily after the `T`: the hour group first, the minute group on what it
leaves. -/
def matchAt : List Char → Option (Option Nat × Option Nat)
  | [] => none
  | c :: cs1 =>
    if c = 'P' ∨ c = 'p' then
      match findT cs1 with
      | none => none
      | some r4 =>
        some ((groupNum 'H' 'h' r4).1,
              (groupNum 'M' 'm' (groupNum 'H' 'h' r4).2).1)
    else none

/-- `RegExp.exec`: the match at the leftmost start position that succeeds. -/
def execFind : List Char → Option (Option Nat × Option Nat)
  | [] => none
  | c :: cs =>
    match matchAt (c :: cs) with
    | some v => some v
    | none => execFind cs

/-- `parseISODurationToMinutes` from `travel.ts`: `undefined` or the empty
string (both falsy) give `undefined`; a string the pattern does not match
anywhere gives `undefined`; otherwise `hours * 60 + minutes` with a
non-participating capture counting as zero. -/
def parseISODurationToMinutes (dur : Option String) : Option Nat :=
  match dur with
  | none => none
  | some s =>
    if s = "" then none
    else
      match execFind s.toList with
      | none => none
      | some (oh, om) => some (oh.getD 0 * 60 + om.getD 0)

/-! Section: the travel service (`src/services/travel.ts`).

Network responses are modelled by a `TravelEnv` record: each field holds
what the corresponding fetch would yield, with `none` standing for a
non-success HTTP status (or, for the lookup endpoints, an unparsable
body where the code catches the error). The OAuth token exchange is an
`Except`, since its failure is thrown. `iso d` stands for
`new Date(Date.now() + d).toISOString()`; dates inside hotel search
parameters are carried as epoch milliseconds, their string rendering
being irrelevant to the computation. JavaScript numbers are rationals. -/

inductive CabinClass where
  | economy
  | premiumEconomy
  | business
  | first
deriving DecidableEq, Repr

structure FlightSearchParams where
  origin : String
  destination : String
  departDate : String
  returnDate : Option String
  passengers : ℚ
  cabin : Option CabinClass
  maxPrice : Option ℚ
deriving DecidableEq, Repr

structure FlightOption where
  id : String
  carrier : String
  flightNumber : String
  departTime : String
  arriveTime : String
  durationMinutes : Nat
  stops : Nat
  cabin : CabinClass
  priceUSD : ℚ
deriving DecidableEq, Repr

structure HotelSearchParams where
  city : String
  checkInMs : Int
  checkOutMs : Int
  guests : ℚ
  roomCount : Option ℚ
  budgetUSD : Option ℚ
deriving DecidableEq, Repr

structure HotelOption where
  id : String
  name : String
  stars : ℚ
  location : String
  checkIn : String
  checkOut : String
  pricePerNightUSD : ℚ
  totalUSD : ℚ
deriving DecidableEq, Repr

/-- One segment of an Amadeus flight-offer itinerary, keeping the fields
the mapper reads; `none` models an absent JSON field. -/
structure Segment where
  carrierCode : Option String
  marketingCarrier : Option String
  number : Option String
  departureAt : Option String
  arrivalAt : Option String
deriving DecidableEq, Repr

structure ItineraryJson where
  duration : Option String
  segments : List Segment
deriving DecidableEq, Repr

structure FlightOfferJson where
  id : Option String
  itineraries : List ItineraryJson
  priceTotal : Option ℚ
deriving DecidableEq, Repr

structure HotelPriceJson where
  averageBase : Option ℚ
  base : Option ℚ
  total : Option ℚ
deriving DecidableEq, Repr

structure HotelOfferJson where
  id : Option String
  checkInDate : Option String
  checkOutDate : Option String
  price : HotelPriceJson
deriving DecidableEq, Repr

/-- The `hotel` object of an Amadeus hotel-offer entry. The rating is
modelled as a numeral when present, so the mapper's `isNaN` guard cannot
fire. -/
structure HotelInfoJson where
  hotelId : Option String
  chainCode : Option String
  name : Option String
  rating : Option ℚ
  cityName : Option String
  countryCode : Option String
deriving DecidableEq, Repr

structure HotelEntryJson where
  hotel : HotelInfoJson
  offers : List HotelOfferJson
deriving DecidableEq, Repr

/-- Responses of the two location-resolution endpoints, keyed by the
keyword sent: `none` is a failed fetch (or unparsable body, which the
cities branch catches), a list holds each returned entry's `iataCode`
field. -/
structure LookupEnv where
  cities : String → Option (List (Option String))
  locations : String → Option (List (Option String))

/-- The environment a search call runs against: configuration variables
and the provider responses it would observe. -/
structure TravelEnv where
  amadeusClientId : Option String
  amadeusClientSecret : Option String
  disableTravelMocks : Option String
  iso : Nat → String
  tokenResp : Except Nat String
  lookup : LookupEnv
  flightOffers : Option (List FlightOfferJson)
  hotelsByCity : Option (List (Option String))
  hotelOffers : Option (List HotelEntryJson)

/-- Lower-case an ASCII letter, leaving other characters alone. -/
def lowerChar (c : Char) : Char :=
  if 'A' ≤ c && c ≤ 'Z' then Char.ofNat (c.toNat + 32) else c

/-- Upper-case an ASCII letter, leaving other characters alone. -/
def upperChar (c : Char) : Char :=
  if 'a' ≤ c && c ≤ 'z' then Char.ofNat (c.toNat - 32) else c

/-- `toLowerCase` (restricted to ASCII case mapping, which is all the
configuration comparison needs). -/
def strLower (s : String) : String := String.mk (s.data.map lowerChar)

/-- `toUpperCase` (ASCII case mapping; the three-letter-code test only
concerns ASCII letters). -/
def strUpper (s : String) : String := String.mk (s.data.map upperChar)

def isWsChar (c : Char) : Bool :=
  c = ' ' ∨ c = '\t' ∨ c = '\n' ∨ c = '\r'

/-- `trim`: whitespace stripped from both ends. -/
def trimChars (cs : List Char) : List Char :=
  ((cs.dropWhile isWsChar).reverse.dropWhile isWsChar).reverse

def strTrim (s : String) : String := String.mk (trimChars s.data)

/-- JavaScript string truthiness of a possibly-absent variable:
`!!x` is false for `undefined` and for the empty string. -/
def truthyVar (o : Option String) : Bool := o.getD "" != ""

/-- `!!E.AMADEUS_CLIENT_ID && !!E.AMADEUS_CLIENT_SECRET`. -/
def hasAmadeusEnv (env : TravelEnv) : Bool :=
  truthyVar env.amadeusClientId && truthyVar env.amadeusClientSecret

/-- `String(E.DISABLE_TRAVEL_MOCKS || "").toLowerCase() === "true"`. -/
def disableMocksEnv (env : TravelEnv) : Bool :=
  strLower (env.disableTravelMocks.getD "") == "true"

/-- The filter `ceiling ? price <= ceiling : true`: an absent or zero
(falsy) ceiling filters nothing. -/
def ceilingOk (ceiling : Option ℚ) (price : ℚ) : Bool :=
  match ceiling with
  | some m => if m = 0 then true else decide (price ≤ m)
  | none => true

/-- `Math.ceil` on an exact rational. -/
def jsCeil (q : ℚ) : Int := Int.ceil q

/-- `Math.round` on an exact rational: half-values round toward positive
infinity. -/
def jsRound (q : ℚ) : Int := Int.floor (q + 1 / 2)

/-- `^[A-Z]{3}$`. -/
def isUpperAlpha (c : Char) : Bool := 'A' ≤ c && c ≤ 'Z'

def isThreeLetterCode (s : String) : Bool :=
  s.data.length == 3 && s.data.all isUpperAlpha

/-- The cities-endpoint branch of `resolveCityToCode`: on a successful
fetch, `data[0]?.iataCode` when truthy; anything else falls through. -/
def citiesFirstCode (lk : LookupEnv) (keyword : String) : Option String :=
  match lk.cities keyword with
  | some (first :: _) =>
    match first with
    | some code => if code != "" then some code else none
    | none => none
  | _ => none

/-- The locations-endpoint fallback of `resolveCityToCode`: a failed fetch
gives null, otherwise `data.find((d) => d?.iataCode)?.iataCode ?? null`. -/
def locationsFirstCode (lk : LookupEnv) (keyword : String) : Option String :=
  match lk.locations keyword with
  | none => none
  | some entries => ((entries.filterMap id).filter fun c => c != "").head?

/-- `resolveCityToCode` from `travel.ts`: empty trimmed input gives null;
a trimmed input whose upper-casing matches `^[A-Z]{3}$` is returned
upper-cased as-is; otherwise the cities endpoint is consulted first and
the locations endpoint is the fallback. -/
def resolveCityToCode (lk : LookupEnv) (input : String) : Option String :=
  if strTrim input = "" then none
  else if isThreeLetterCode (strUpper (strTrim input)) then
    some (strUpper (strTrim input))
  else
    match citiesFirstCode lk (strTrim input) with
    | some code => some code
    | none => locationsFirstCode lk (strTrim input)

/-- `mapAmadeusOfferToFlightOption` from `travel.ts`. `nowIso` stands for
`new Date().toISOString()`. The stop count `Math.max(0, (len ?? 1) - 1)`
coincides with truncated subtraction on `Nat`. -/
def mapAmadeusOfferToFlightOption (nowIso : String)
    (offer : FlightOfferJson) : FlightOption :=
  let itin := offer.itineraries.head?
  let seg := itin.bind fun i => i.segments.head?
  let lastSeg := itin.bind fun i => i.segments.getLast?
  { id := offer.id.getD
      (((seg.bind Segment.carrierCode).getD "UNK") ++ "-" ++
        ((seg.bind Segment.number).getD "0000")),
    carrier := ((seg.bind Segment.carrierCode).orElse
      fun _ => seg.bind Segment.marketingCarrier).getD "UNK",
    flightNumber := (seg.bind Segment.number).getD "0000",
    departTime := (seg.bind Segment.departureAt).getD nowIso,
    arriveTime := (lastSeg.bind Segment.arrivalAt).getD nowIso,
    durationMinutes :=
      (parseISODurationToMinutes (itin.bind ItineraryJson.duration)).getD 0,
    stops := ((itin.map fun i => i.segments.length).getD 1) - 1,
    cabin := CabinClass.economy,
    priceUSD := offer.priceTotal.getD 0 }

/-- The two built-in mock flights. Their `Date.now()`-relative timestamps
are rendered through the environment clock. -/
def mockFlights (env : TravelEnv) : List FlightOption :=
  [{ id := "FL-1", carrier := "CF", flightNumber := "CF123",
     departTime := env.iso (7 * 24 * 3600 * 1000),
     arriveTime := env.iso (7 * 24 * 3600 * 1000 + 10 * 3600 * 1000),
     durationMinutes := 600, stops := 0, cabin := CabinClass.economy,
     priceUSD := 450 },
   { id := "FL-2", carrier := "CF", flightNumber := "CF456",
     departTime := env.iso (7 * 24 * 3600 * 1000 + 2 * 3600 * 1000),
     arriveTime := env.iso (7 * 24 * 3600 * 1000 + 14 * 3600 * 1000),
     durationMinutes := 720, stops := 1, cabin := CabinClass.economy,
     priceUSD := 380 }]

/-- The two built-in mock hotels. -/
def mockHotels (env : TravelEnv) : List HotelOption :=
  [{ id := "HT-1", name := "Lisbon Central Hotel", stars := 4,
     location := "Lisbon City Center",
     checkIn := env.iso (7 * 24 * 3600 * 1000),
     checkOut := env.iso (12 * 24 * 3600 * 1000),
     pricePerNightUSD := 120, totalUSD := 600 },
   { id := "HT-2", name := "Alfama Boutique", stars := 3,
     location := "Alfama, Lisbon",
     checkIn := env.iso (7 * 24 * 3600 * 1000),
     checkOut := env.iso (12 * 24 * 3600 * 1000),
     pricePerNightUSD := 90, totalUSD := 450 }]

/-- The flight mock fallback: the mock flights filtered by the optional
price ceiling, with the cabin overridden by the requested one when
supplied. -/
def mockFlightResults (env : TravelEnv) (params : FlightSearchParams) :
    List FlightOption :=
  ((mockFlights env).filter fun f => ceilingOk params.maxPrice f.priceUSD).map
    fun f => { f with cabin := params.cabin.getD f.cabin }

/-- `searchFlights` from `travel.ts`. -/
def searchFlights (env : TravelEnv) (params : FlightSearchParams) :
    Except String (List FlightOption) :=
  if !hasAmadeusEnv env && !disableMocksEnv env then
    Except.ok (mockFlightResults env params)
  else if !hasAmadeusEnv env && disableMocksEnv env then
    Except.ok []
  else
    match env.tokenResp with
    | Except.error status =>
      Except.error ("Amadeus auth failed: " ++ toString status)
    | Except.ok _token =>
      match env.flightOffers with
      | none =>
        if disableMocksEnv env then Except.ok []
        else Except.ok (mockFlightResults env params)
      | some offers =>
        Except.ok ((offers.take 10).map (mapAmadeusOfferToFlightOption (env.iso 0)))

/-- `Math.max(1, Math.ceil((checkOut - checkIn) / (24 * 3600 * 1000)))`. -/
def hotelNights (params : HotelSearchParams) : Int :=
  max 1 (jsCeil ((params.checkOutMs - params.checkInMs : ℚ) / (24 * 3600 * 1000)))

/-- The hotel mock fallback: each mock hotel's total recomputed as its
per-night price times the computed night count, then filtered by the
optional budget. -/
def mockHotelResults (env : TravelEnv) (params : HotelSearchParams) :
    List HotelOption :=
  ((mockHotels env).map
      fun h => { h with totalUSD := h.pricePerNightUSD * (hotelNights params : ℚ) }).filter
    fun h => ceilingOk params.budgetUSD h.totalUSD

/-- The parts of `[cityName, countryCode].filter(Boolean)`: present and
non-empty. -/
def presentParts (parts : List (Option String)) : List String :=
  (parts.filterMap id).filter fun s => s != ""

/-- `Array.prototype.join(", ")`. -/
def joinParts : List String → String
  | [] => ""
  | [s] => s
  | s :: rest => s ++ ", " ++ joinParts rest

/-- `mapAmadeusHotelOfferToHotelOption` from `travel.ts`. -/
def mapAmadeusHotelOfferToHotelOption (nowIso : String)
    (hotelEntry : HotelEntryJson) (offer : HotelOfferJson) : HotelOption :=
  let pricePerNightUSD : ℚ :=
    (offer.price.averageBase.orElse fun _ => offer.price.base).getD 0
  { id := ((hotelEntry.hotel.hotelId.orElse
        fun _ => hotelEntry.hotel.chainCode).getD "HT") ++ "-" ++ (offer.id.getD "0"),
    name := hotelEntry.hotel.name.getD "Hotel",
    stars := hotelEntry.hotel.rating.getD 0,
    location := joinParts
      (presentParts [hotelEntry.hotel.cityName, hotelEntry.hotel.countryCode]),
    checkIn := offer.checkInDate.getD nowIso,
    checkOut := offer.checkOutDate.getD nowIso,
    pricePerNightUSD := pricePerNightUSD,
    totalUSD := offer.price.total.getD pricePerNightUSD }

/-- The provider-path hotel pipeline before the cap: every offer of every
entry mapped, totals rounded to the nearest whole unit, then the budget
filter. -/
def providerHotelResults (env : TravelEnv) (params : HotelSearchParams)
    (list : List HotelEntryJson) : List HotelOption :=
  ((list.flatMap fun entry => entry.offers.map fun offer =>
        mapAmadeusHotelOfferToHotelOption (env.iso 0) entry offer).map
      fun h => { h with totalUSD := (jsRound h.totalUSD : ℚ) }).filter
    fun h => ceilingOk params.budgetUSD h.totalUSD

/-- `searchHotels` from `travel.ts`. -/
def searchHotels (env : TravelEnv) (params : HotelSearchParams) :
    Except String (List HotelOption) :=
  if !hasAmadeusEnv env && !disableMocksEnv env then
    Except.ok (mockHotelResults env params)
  else if !hasAmadeusEnv env && disableMocksEnv env then
    Except.ok []
  else
    match env.tokenResp with
    | Except.error status =>
      Except.error ("Amadeus auth failed: " ++ toString status)
    | Except.ok _token =>
      match resolveCityToCode env.lookup params.city with
      | none =>
        if disableMocksEnv env then Except.ok []
        else Except.ok (mockHotelResults env params)
      | some _cityCode =>
        match env.hotelsByCity with
        | none =>
          if disableMocksEnv env then Except.ok []
          else Except.ok (mockHotelResults env params)
        | some rawHotels =>
          if ((rawHotels.filterMap id).take 20).isEmpty then
            if disableMocksEnv env then Except.ok []
            else Except.ok (mockHotelResults env params)
          else
            match env.hotelOffers with
            | none =>
              if disableMocksEnv env then Except.ok []
              else Except.ok (mockHotelResults env params)
            | some list =>
              Except.ok ((providerHotelResults env params list).take 10)

structure BudgetInput where
  flightMaxUSD : Option ℚ
  hotelPerNightUSD : Option ℚ
  nights : Option ℚ
  activitiesUSD : Option ℚ
  passengers : Option ℚ
deriving DecidableEq, Repr

structure BudgetBreakdown where
  flight : ℚ
  hotel : ℚ
  activities : ℚ
deriving DecidableEq, Repr

structure BudgetEstimate where
  totalUSD : ℚ
  breakdown : BudgetBreakdown
deriving DecidableEq, Repr

/-- `estimateBudget` from `travel.ts`. -/
def estimateBudget (input : BudgetInput) : BudgetEstimate :=
  let flight := input.flightMaxUSD.getD 500
  let hotel := (input.hotelPerNightUSD.getD 120) * (input.nights.getD 4)
  let activities := input.activitiesUSD.getD 200
  let pax := input.passengers.getD 1
  { totalUSD := pax * (flight + hotel + activities),
    breakdown :=
      { flight := flight * pax, hotel := hotel * pax,
        activities := activities * pax } }

/-- The payload of a non-throwing search call, for stating counterexamples. -/
def okOf {α : Type} (e : Except String α) : Option α :=
  match e with
  | Except.ok v => some v
  | Except.error _ => none

/-! Test fixtures for the travel service. -/

/-- Fixture: both location-resolution endpoints fail. -/
def emptyLookup : LookupEnv :=
  { cities := fun _ => none, locations := fun _ => none }

/-- Fixture: no provider credential configured, mocks enabled. -/
def noCredEnv : TravelEnv :=
  { amadeusClientId := none, amadeusClientSecret := none,
    disableTravelMocks := none, iso := fun _ => "",
    tokenResp := Except.error 0, lookup := emptyLookup,
    flightOffers := none, hotelsByCity := none, hotelOffers := none }

/-- Fixture: the SFO → LIS search of the end-to-end scenario. -/
def sfoLisParams (price : Option ℚ) : FlightSearchParams :=
  { origin := "SFO", destination := "LIS", departDate := "2025-10-20",
    returnDate := none, passengers := 1, cabin := none, maxPrice := price }

/-- Fixture: a hotel search whose stay spans zero milliseconds, making the
computed night count 1. -/
def sameDayHotelParams : HotelSearchParams :=
  { city := "Lisbon", checkInMs := 0, checkOutMs := 0, guests := 2,
    roomCount := none, budgetUSD := none }

/-- Fixture: a hotel search for "LIS" with a one-day stay and no budget. -/
def lisHotelParams : HotelSearchParams :=
  { city := "LIS", checkInMs := 0, checkOutMs := 86400000, guests := 2,
    roomCount := none, budgetUSD := none }

/-- Fixture: a provider flight offer priced above a 100-unit ceiling. -/
def expensiveFlightOffer : FlightOfferJson :=
  { id := some "EXP", itineraries := [], priceTotal := some 1000 }

/-- Fixture: a provider flight offer priced below a 100-unit ceiling. -/
def cheapFlightOffer : FlightOfferJson :=
  { id := some "CHP", itineraries := [], priceTotal := some 50 }

/-- Fixture: ten expensive offers followed by one cheap offer. -/
def elevenOffers : List FlightOfferJson :=
  List.replicate 10 expensiveFlightOffer ++ [cheapFlightOffer]

/-- Fixture: credentials configured, token exchange succeeding, the flight
search returning the eleven offers, the hotel by-city lookup returning one
identifier, the hotel offer search returning no entries. -/
def credEnvElevenOffers : TravelEnv :=
  { amadeusClientId := some "id", amadeusClientSecret := some "secret",
    disableTravelMocks := none, iso := fun _ => "",
    tokenResp := Except.ok "token", lookup := emptyLookup,
    flightOffers := some elevenOffers,
    hotelsByCity := some [some "HLIS"], hotelOffers := some [] }

/-- Fixture: credentials configured, token exchange succeeding, the
flight-offer search failing with a non-success status. -/
def credEnvOffersDown : TravelEnv :=
  { credEnvElevenOffers with flightOffers := none }

/-- Fixture: the `hotel` object of a provider hotel-offer entry. -/
def sampleHotelInfo : HotelInfoJson :=
  { hotelId := some "HLIS1", chainCode := none, name := some "Test Hotel",
    rating := some 4, cityName := some "Lisbon", countryCode := some "PT" }

/-- Fixture: one provider hotel offer with an explicit total of 201. -/
def sampleHotelOffer : HotelOfferJson :=
  { id := some "OF1", checkInDate := some "2099-01-01",
    checkOutDate := some "2099-01-02",
    price := { averageBase := none, base := some 100, total := some 201 } }

/-- Fixture: a hotel-offer entry as the provider would return it. -/
def sampleHotelEntry : HotelEntryJson :=
  { hotel := sampleHotelInfo, offers := [sampleHotelOffer] }

/-- Fixture: the hotel option the pipeline produces from
`sampleHotelEntry`. -/
def sampleMappedHotel : HotelOption :=
  { id := "HLIS1-OF1", name := "Test Hotel", stars := 4,
    location := "Lisbon, PT", checkIn := "2099-01-01",
    checkOut := "2099-01-02", pricePerNightUSD := 100, totalUSD := 201 }

end AgentsDemo

namespace AgentsDemo

/-! Theorems about the confirmation gate. -/

theorem reconcileCall_snd_eq_some {d : String → Option Decision}
    {g : ToolCall → String} {c : ToolCall} {i : String}
    (h : (reconcileCall d g c).2 = some i) :
    i = c.ident ∧ requiresConfirmation c.name = true ∧ c.result = none ∧
      d c.ident = some Decision.approved := by
  unfold reconcileCall at h
  split at h
  · rename_i hcond
    cases hd : d c.ident with
    | none => simp [hd] at h
    | some dec =>
      cases dec with
      | approved => simp [hd] at h; exact ⟨h.symm, hcond.1, hcond.2, rfl⟩
      | rejected => simp [hd] at h
  · simp at h

theorem reconcileCall_ident (d : String → Option Decision)
    (g : ToolCall → String) (c : ToolCall) :
    (reconcileCall d g c).1.ident = c.ident := by
  unfold reconcileCall
  split
  · cases hd : d c.ident with
    | none => rfl
    | some dec => cases dec <;> simp [hd]
  · rfl

theorem reconcileCall_name (d : String → Option Decision)
    (g : ToolCall → String) (c : ToolCall) :
    (reconcileCall d g c).1.name = c.name := by
  unfold reconcileCall
  split
  · cases hd : d c.ident with
    | none => rfl
    | some dec => cases dec <;> simp [hd]
  · rfl

/-- Reconciling an already-reconciled call changes nothing and invokes
nothing: the per-call step is idempotent. -/
theorem reconcileCall_idem (d : String → Option Decision)
    (g : ToolCall → String) (c : ToolCall) :
    reconcileCall d g (reconcileCall d g c).1 = ((reconcileCall d g c).1, none) := by
  by_cases hreq : requiresConfirmation c.name = true
  · by_cases hres : c.result = none
    · cases hd : d c.ident with
      | none => simp [reconcileCall, hreq, hres, hd]
      | some dec =>
        cases dec with
        | approved => simp [reconcileCall, hreq, hres, hd]
        | rejected => simp [reconcileCall, hreq, hres, hd]
    · simp [reconcileCall, hreq, hres]
  · simp [reconcileCall, hreq]

/-- A full reconciliation pass is idempotent: running it again on its own
output changes no call and invokes nothing. -/
theorem processToolCalls_idem (d : String → Option Decision)
    (g : ToolCall → String) (s : List ToolCall) :
    processToolCalls d g (processToolCalls d g s).1 =
      ((processToolCalls d g s).1, []) := by
  unfold processToolCalls
  refine Prod.ext ?_ ?_
  · show (List.map _ (List.map _ s)) = List.map _ s
    rw [List.map_map]
    refine List.map_congr_left fun c _ => ?_
    simp only [Function.comp_apply]
    rw [reconcileCall_idem]
  · show List.filterMap _ (List.map _ s) = []
    rw [List.filterMap_map]
    refine List.filterMap_eq_nil_iff.mpr fun c _ => ?_
    simp only [Function.comp_apply]
    rw [reconcileCall_idem]

theorem runPasses_of_stable (d : String → Option Decision)
    (g : ToolCall → String) (s : List ToolCall)
    (hs : processToolCalls d g s = (s, [])) :
    ∀ n, runPasses d g n s = (s, []) := by
  intro n
  induction n with
  | zero => rfl
  | succ m ih => simp [runPasses, hs, ih]

/-- Any positive number of reconciliation passes has the same effect as a
single pass: the state and the accumulated invocations of pass `m + 1`
equal those of pass one. -/
theorem runPasses_succ (d : String → Option Decision)
    (g : ToolCall → String) (calls : List ToolCall) (m : Nat) :
    runPasses d g (m + 1) calls =
      ((processToolCalls d g calls).1, (processToolCalls d g calls).2) := by
  have hstable :
      runPasses d g m (processToolCalls d g calls).1 =
        ((processToolCalls d g calls).1, []) :=
    runPasses_of_stable d g _ (processToolCalls_idem d g calls) m
  simp [runPasses, hstable]

/-- The invocations of a single pass are the identifiers of the calls
whose reconciliation actually invoked the gated operation. -/
theorem processToolCalls_snd_eq (d : String → Option Decision)
    (g : ToolCall → String) (s : List ToolCall) :
    (processToolCalls d g s).2 =
      (s.filter fun c => (reconcileCall d g c).2.isSome).map ToolCall.ident := by
  induction s with
  | nil => rfl
  | cons c cs ih =>
    simp only [processToolCalls] at ih ⊢
    cases h : (reconcileCall d g c).2 with
    | none => simp [List.filterMap_cons, List.filter_cons, h, ih]
    | some j =>
      have hj : j = c.ident := (reconcileCall_snd_eq_some h).1
      simp [List.filterMap_cons, List.filter_cons, h, ih, hj]

theorem mem_processToolCalls_snd {d : String → Option Decision}
    {g : ToolCall → String} {s : List ToolCall} {i : String}
    (h : i ∈ (processToolCalls d g s).2) :
    d i = some Decision.approved ∧
      ∃ c ∈ s, c.ident = i ∧ requiresConfirmation c.name = true := by
  simp only [processToolCalls] at h
  rcases List.mem_filterMap.mp h with ⟨c, hc, hsnd⟩
  obtain ⟨hi, hreq, _, happ⟩ := reconcileCall_snd_eq_some hsnd
  exact ⟨hi ▸ happ, c, hc, hi.symm, hreq⟩

/-- Across any number of passes, an invoked identifier always belongs to a
confirmation-required call of the original conversation whose decision is
an approval. -/
theorem mem_runPasses_snd {d : String → Option Decision}
    {g : ToolCall → String} {n : Nat} :
    ∀ {s : List ToolCall} {i : String}, i ∈ (runPasses d g n s).2 →
      d i = some Decision.approved ∧
        ∃ c ∈ s, c.ident = i ∧ requiresConfirmation c.name = true := by
  induction n with
  | zero => intro s i h; simp [runPasses] at h
  | succ m ih =>
    intro s i h
    simp only [runPasses, List.mem_append] at h
    rcases h with h | h
    · exact mem_processToolCalls_snd h
    · obtain ⟨happ, c', hc', hid, hreq⟩ := ih h
      simp only [processToolCalls, List.mem_map] at hc'
      obtain ⟨c, hc, rfl⟩ := hc'
      rw [reconcileCall_ident] at hid
      rw [reconcileCall_name] at hreq
      exact ⟨happ, c, hc, hid, hreq⟩

theorem runPasses_fst_length (d : String → Option Decision)
    (g : ToolCall → String) (n : Nat) (calls : List ToolCall) :
    (runPasses d g n calls).1.length = calls.length := by
  induction n generalizing calls with
  | zero => rfl
  | succ m ih =>
    simp only [runPasses]
    rw [ih]
    simp [processToolCalls]

/-- Claim C1: for every confirmation-required tool call (the tools of the
executions table: bookFlight, bookHotel, getWeatherInformation), the gated
side-effecting operation is invoked at most once across any number of
reconciliation passes over the same conversation, and an invocation only
happens for an identifier that carries an explicit approved decision and
belongs to a confirmation-required call of the conversation. -/
theorem gate_approved_invoked_at_most_once
    (d : String → Option Decision) (g : ToolCall → String)
    (calls : List ToolCall) (n : Nat) (i : String)
    (hnd : (calls.map ToolCall.ident).Nodup) :
    ((runPasses d g n calls).2.count i ≤ 1) ∧
    (i ∈ (runPasses d g n calls).2 →
      d i = some Decision.approved ∧
        ∃ c ∈ calls, c.ident = i ∧ requiresConfirmation c.name = true) := by
  constructor
  · cases n with
    | zero => simp [runPasses]
    | succ m =>
      rw [runPasses_succ]
      calc ((processToolCalls d g calls).2).count i
          ≤ (calls.map ToolCall.ident).count i := by
            rw [processToolCalls_snd_eq]
            exact ((List.filter_sublist _).map _).count_le _
        _ ≤ 1 := List.nodup_iff_count_le_one.mp hnd i
  · exact fun h => mem_runPasses_snd h

/-- Witness for C1: a conversation with an approved bookFlight call and an
undecided bookHotel call, reconciled three times, invokes "tc-1" at most
once. -/
theorem gate_approved_invoked_at_most_once_witness :
    (runPasses gateDecisionsW gateExecW 3 gateCallsW).2.count "tc-1" ≤ 1 :=
  (gate_approved_invoked_at_most_once gateDecisionsW gateExecW gateCallsW 3 "tc-1"
    (by decide)).1

/-- Claim C2: a confirmation-required call with a rejected decision is never
invoked and ends up recorded with the fixed denial payload; a
confirmation-required call with no decision is never invoked and stays
pending, unchanged, across any number of reconciliation passes. -/
theorem gate_rejected_denied_and_pending_stays
    (d : String → Option Decision) (g : ToolCall → String)
    (calls : List ToolCall) (n k : Nat) (c : ToolCall)
    (hk : calls[k]? = some c)
    (hreq : requiresConfirmation c.name = true)
    (hres : c.result = none) :
    (d c.ident = some Decision.rejected →
        c.ident ∉ (runPasses d g n calls).2 ∧
        (1 ≤ n →
          (runPasses d g n calls).1[k]? =
            some { c with result := some deniedResult })) ∧
    (d c.ident = none →
        c.ident ∉ (runPasses d g n calls).2 ∧
        (runPasses d g n calls).1[k]? = some c) := by
  constructor
  · intro hd
    constructor
    · intro hmem
      have := (mem_runPasses_snd hmem).1
      rw [hd] at this
      simp at this
    · intro hn
      obtain ⟨m, rfl⟩ : ∃ m, n = m + 1 := ⟨n - 1, by omega⟩
      rw [runPasses_succ]
      show (calls.map fun c => (reconcileCall d g c).1)[k]? = _
      rw [List.getElem?_map, hk]
      simp [reconcileCall, hreq, hres, hd]
  · intro hd
    constructor
    · intro hmem
      have := (mem_runPasses_snd hmem).1
      rw [hd] at this
      simp at this
    · cases n with
      | zero => exact hk
      | succ m =>
        rw [runPasses_succ]
        show (calls.map fun c => (reconcileCall d g c).1)[k]? = _
        rw [List.getElem?_map, hk]
        simp [reconcileCall, hreq, hres, hd]

/-- Witness for C2: after two passes, the rejected bookHotel call of the
fixture conversation carries the denial payload. -/
theorem gate_rejected_denied_and_pending_stays_witness :
    (runPasses gateDecisionsRejW gateExecW 2 gateCallsW).1[1]? =
      some { ident := "tc-2", name := "bookHotel", args := "HT-1",
             result := some deniedResult } :=
  ((gate_rejected_denied_and_pending_stays gateDecisionsRejW gateExecW gateCallsW 2 1
      { ident := "tc-2", name := "bookHotel", args := "HT-1", result := none }
      (by decide) (by decide) rfl).1 (by decide)).2 (by omega)

/-! Theorems about the duration parser. -/

theorem takeDigits_snd_subset : ∀ (cs : List Char), ∀ x ∈ (takeDigits cs).2, x ∈ cs := by
  intro cs
  induction cs with
  | nil => intro x hx; simp [takeDigits] at hx
  | cons c cs ih =>
    intro x hx
    by_cases h : c.isDigit
    · simp only [takeDigits, if_pos h] at hx
      exact List.mem_cons_of_mem _ (ih x hx)
    · simp only [takeDigits, if_neg h] at hx
      exact hx

theorem groupNum_snd_subset (up low : Char) (cs : List Char) :
    ∀ x ∈ (groupNum up low cs).2, x ∈ cs := by
  intro x hx
  unfold groupNum at hx
  split at hx
  · rename_i ds r rs htd
    split at hx
    · have hx2 : x ∈ rs := hx
      have hmem : x ∈ (takeDigits cs).2 := by
        rw [htd]; exact List.mem_cons_of_mem _ hx2
      exact takeDigits_snd_subset cs x hmem
    · exact hx
  · exact hx

theorem tryT_mem {r r4 : List Char} (h : tryT r = some r4) : 'T' ∈ r ∨ 't' ∈ r := by
  cases r with
  | nil => simp [tryT] at h
  | cons c cs =>
    by_cases hc : c = 'T' ∨ c = 't'
    · rcases hc with rfl | rfl
      · exact Or.inl (List.mem_cons_self _ _)
      · exact Or.inr (List.mem_cons_self _ _)
    · simp [tryT, hc] at h

theorem afterD_mem {r2 r4 : List Char} (h : afterD r2 = some r4) :
    'T' ∈ r2 ∨ 't' ∈ r2 := by
  unfold afterD at h
  split at h
  · cases ht : tryT (groupNum 'D' 'd' r2).2 with
    | some r5 =>
      rcases tryT_mem ht with hm | hm
      · exact Or.inl (groupNum_snd_subset _ _ _ _ hm)
      · exact Or.inr (groupNum_snd_subset _ _ _ _ hm)
    | none =>
      rw [ht] at h
      exact tryT_mem h
  · exact tryT_mem h

theorem afterM_mem {r1 r4 : List Char} (h : afterM r1 = some r4) :
    'T' ∈ r1 ∨ 't' ∈ r1 := by
  unfold afterM at h
  split at h
  · cases ht : afterD (groupNum 'M' 'm' r1).2 with
    | some r5 =>
      rcases afterD_mem ht with hm | hm
      · exact Or.inl (groupNum_snd_subset _ _ _ _ hm)
      · exact Or.inr (groupNum_snd_subset _ _ _ _ hm)
    | none =>
      rw [ht] at h
      exact afterD_mem h
  · exact afterD_mem h

theorem findT_mem {cs1 r4 : List Char} (h : findT cs1 = some r4) :
    'T' ∈ cs1 ∨ 't' ∈ cs1 := by
  unfold findT at h
  split at h
  · cases ht : afterM (groupNum 'Y' 'y' cs1).2 with
    | some r5 =>
      rcases afterM_mem ht with hm | hm
      · exact Or.inl (groupNum_snd_subset _ _ _ _ hm)
      · exact Or.inr (groupNum_snd_subset _ _ _ _ hm)
    | none =>
      rw [ht] at h
      exact afterM_mem h
  · exact afterM_mem h

theorem matchAt_mem {cs : List Char} {v : Option Nat × Option Nat}
    (h : matchAt cs = some v) : 'T' ∈ cs ∨ 't' ∈ cs := by
  cases cs with
  | nil => simp [matchAt] at h
  | cons c cs1 =>
    simp only [matchAt] at h
    split at h
    · cases hf : findT cs1 with
      | none => simp [hf] at h
      | some r4 =>
        rcases findT_mem hf with h1 | h1
        · exact Or.inl (List.mem_cons_of_mem _ h1)
        · exact Or.inr (List.mem_cons_of_mem _ h1)
    · simp at h

theorem execFind_mem : ∀ {cs : List Char} {v : Option Nat × Option Nat},
    execFind cs = some v → 'T' ∈ cs ∨ 't' ∈ cs := by
  intro cs
  induction cs with
  | nil => intro v h; simp [execFind] at h
  | cons c cs ih =>
    intro v h
    simp only [execFind] at h
    cases hm : matchAt (c :: cs) with
    | some w => exact matchAt_mem hm
    | none =>
      rw [hm] at h
      rcases ih h with h1 | h1
      · exact Or.inl (List.mem_cons_of_mem _ h1)
      · exact Or.inr (List.mem_cons_of_mem _ h1)

/-- Claim C3: the duration parser maps "PT10H30M" to 630 minutes and
"PT45M" to 45 minutes, and for any string containing no time component
(no `T` marker, in either case) the derived duration — the parse result
defaulted to zero, as the flight mapper computes it — is 0. -/
theorem parseISODuration_examples_and_no_time_component (s : String)
    (hs : ∀ c ∈ s.toList, c ≠ 'T' ∧ c ≠ 't') :
    parseISODurationToMinutes (some "PT10H30M") = some 630 ∧
    parseISODurationToMinutes (some "PT45M") = some 45 ∧
    (parseISODurationToMinutes (some s)).getD 0 = 0 := by
  refine ⟨by decide, by decide, ?_⟩
  unfold parseISODurationToMinutes
  by_cases hemp : s = ""
  · simp [hemp]
  · simp only [if_neg hemp]
    cases he : execFind s.toList with
    | none => simp
    | some v =>
      rcases execFind_mem he with h1 | h1
      · exact absurd rfl (hs _ h1).1
      · exact absurd rfl (hs _ h1).2

/-- Witness for C3: instantiated at the time-component-free string "P3D". -/
theorem parseISODuration_examples_witness :
    parseISODurationToMinutes (some "PT10H30M") = some 630 ∧
    parseISODurationToMinutes (some "PT45M") = some 45 ∧
    (parseISODurationToMinutes (some "P3D")).getD 0 = 0 :=
  parseISODuration_examples_and_no_time_component "P3D" (by decide)

/-! Theorems about the travel service. -/

/-- Claim C4 counterexample: for the input "lis", whose trimmed form
matches the three-letter pattern only up to case, the function neither
passes the input through unchanged nor resolves it through the lookup
chain (which here would yield null): it returns the upper-cased "LIS". -/
theorem resolveCityToCode_not_unchanged_counterexample :
    resolveCityToCode emptyLookup "lis" = some "LIS" ∧
    some "LIS" ≠ some "lis" ∧
    citiesFirstCode emptyLookup "lis" = none ∧
    locationsFirstCode emptyLookup "lis" = none := by decide

/-- Claim C4 (amended): empty trimmed input resolves to null; a trimmed
input whose upper-casing matches the three-letter code pattern is
returned upper-cased, without lookup; any other input is resolved through
the cities lookup (first entry's code), falling back to the locations
lookup (first entry bearing a code), null when both yield nothing. -/
theorem resolveCityToCode_characterization (lk : LookupEnv) (input : String) :
    (strTrim input = "" → resolveCityToCode lk input = none) ∧
    (strTrim input ≠ "" → isThreeLetterCode (strUpper (strTrim input)) = true →
      resolveCityToCode lk input = some (strUpper (strTrim input))) ∧
    (strTrim input ≠ "" → isThreeLetterCode (strUpper (strTrim input)) = false →
      resolveCityToCode lk input =
        match citiesFirstCode lk (strTrim input) with
        | some code => some code
        | none => locationsFirstCode lk (strTrim input)) := by
  refine ⟨fun h => ?_, fun h1 h2 => ?_, fun h1 h2 => ?_⟩
  · simp [resolveCityToCode, h]
  · simp [resolveCityToCode, h1, h2]
  · simp [resolveCityToCode, h1, h2]

/-- Witness for C4: " LIS " trims and passes through upper-cased. -/
theorem resolveCityToCode_characterization_witness :
    resolveCityToCode emptyLookup " LIS " = some "LIS" :=
  ((resolveCityToCode_characterization emptyLookup " LIS ").2.1
    (by decide) (by decide)).trans (by decide)

/-- Claim C5 counterexample: a credential-less same-day hotel search with
no budget returns totals 120 and 90 (per-night price times the computed
single night), not the static mock totals 600 and 450 — the static mock
offers are not returned as-is. -/
theorem searchHotels_mock_adjusted_counterexample :
    ((okOf (searchHotels noCredEnv sameDayHotelParams)).getD []).map
        HotelOption.totalUSD = [120, 90] ∧
    (mockHotels noCredEnv).map HotelOption.totalUSD = [600, 450] := by
  constructor
  · show (mockHotelResults noCredEnv sameDayHotelParams).map
        HotelOption.totalUSD = [120, 90]
    simp [mockHotelResults, mockHotels, ceilingOk, sameDayHotelParams,
      hotelNights, jsCeil]
  · rfl

/-- Claim C5 (amended): with no provider credential and the mocks-disabled
flag unset, the searches return the mock offers adjusted per call —
flights filtered by the optional price ceiling, with the cabin overridden
by the requested one; hotels with totals recomputed as per-night price
times the computed night count, filtered by the optional budget on the
recomputed total. With the flag set they return the empty list. -/
theorem mock_fallback_characterization (env : TravelEnv)
    (fp : FlightSearchParams) (hp : HotelSearchParams)
    (hA : hasAmadeusEnv env = false) :
    (disableMocksEnv env = false →
      searchFlights env fp = Except.ok (mockFlightResults env fp) ∧
      searchHotels env hp = Except.ok (mockHotelResults env hp)) ∧
    (disableMocksEnv env = true →
      searchFlights env fp = Except.ok [] ∧
      searchHotels env hp = Except.ok []) := by
  constructor <;> intro hdm <;>
    exact ⟨by simp [searchFlights, hA, hdm], by simp [searchHotels, hA, hdm]⟩

/-- Witness for C5: the credential-less fixtures take the mock branch. -/
theorem mock_fallback_characterization_witness :
    searchFlights noCredEnv (sfoLisParams none) =
      Except.ok (mockFlightResults noCredEnv (sfoLisParams none)) ∧
    searchHotels noCredEnv sameDayHotelParams =
      Except.ok (mockHotelResults noCredEnv sameDayHotelParams) :=
  (mock_fallback_characterization noCredEnv (sfoLisParams none)
    sameDayHotelParams rfl).1 rfl

/-- Claim C6 counterexample: with a supplied ceiling of 300 the
credential-less SFO → LIS search returns no flights at all (both mock
prices exceed 300), not the two built-in mock flights. -/
theorem searchFlights_low_ceiling_counterexample :
    okOf (searchFlights noCredEnv (sfoLisParams (some 300))) = some [] ∧
    (mockFlights noCredEnv).length = 2 := by decide

/-- Claim C6 (amended): searching flights SFO → LIS with no credential
configured and a supplied price ceiling of at least 450 returns exactly
the two built-in mock flights, and both have price at most the ceiling. -/
theorem searchFlights_mock_scenario (env : TravelEnv) (M : ℚ)
    (hA : hasAmadeusEnv env = false) (hdm : disableMocksEnv env = false)
    (hM : 450 ≤ M) :
    searchFlights env (sfoLisParams (some M)) = Except.ok (mockFlights env) ∧
    ∀ f ∈ mockFlights env, f.priceUSD ≤ M := by
  have hM0 : ¬ M = 0 := by intro h; rw [h] at hM; norm_num at hM
  have h450 : ceilingOk (some M) 450 = true := by
    show (if M = 0 then true else decide ((450 : ℚ) ≤ M)) = true
    rw [if_neg hM0]
    exact decide_eq_true hM
  have h380 : ceilingOk (some M) 380 = true := by
    show (if M = 0 then true else decide ((380 : ℚ) ≤ M)) = true
    rw [if_neg hM0]
    exact decide_eq_true (le_trans (by norm_num) hM)
  constructor
  · have hbranch : searchFlights env (sfoLisParams (some M)) =
        Except.ok (mockFlightResults env (sfoLisParams (some M))) := by
      simp [searchFlights, hA, hdm]
    rw [hbranch]
    have hfilter : mockFlightResults env (sfoLisParams (some M)) = mockFlights env := by
      unfold mockFlightResults mockFlights
      simp [sfoLisParams, h450, h380]
    rw [hfilter]
  · intro f hf
    simp only [mockFlights, List.mem_cons, List.mem_singleton] at hf
    rcases hf with rfl | rfl | hf
    · exact hM
    · exact le_trans (by norm_num) hM
    · simp at hf

/-- Witness for C6: at ceiling 450 exactly. -/
theorem searchFlights_mock_scenario_witness :
    searchFlights noCredEnv (sfoLisParams (some 450)) =
      Except.ok (mockFlights noCredEnv) :=
  (searchFlights_mock_scenario noCredEnv 450 rfl rfl (by norm_num)).1

/-- Claim C7 counterexample: with a supplied price ceiling of 100 and a
provider response of ten offers priced 1000 followed by one priced 50,
the flight search returns ten offers none of which respects the ceiling:
the cap is applied to the raw provider list, with no local price
filtering before it. -/
theorem searchFlights_cap_without_filter_counterexample :
    ((okOf (searchFlights credEnvElevenOffers (sfoLisParams (some 100)))).getD
        []).length = 10 ∧
    ((okOf (searchFlights credEnvElevenOffers (sfoLisParams (some 100)))).getD
        []).all (fun f => decide (f.priceUSD ≤ 100)) = false := by decide

/-- Claim C7 (amended): provider-path result lists are capped at ten for
both searches; for hotels the cap is applied after the budget filter,
while for flights the cap is applied to the raw provider list without any
local price filtering (the ceiling is only forwarded in the provider
query). -/
theorem result_cap_characterization (env : TravelEnv)
    (fp : FlightSearchParams) (hp : HotelSearchParams) (tok : String)
    (offers : List FlightOfferJson) (entries : List (Option String))
    (hlist : List HotelEntryJson) (code : String)
    (hA : hasAmadeusEnv env = true)
    (htok : env.tokenResp = Except.ok tok)
    (hfo : env.flightOffers = some offers)
    (hres : resolveCityToCode env.lookup hp.city = some code)
    (hby : env.hotelsByCity = some entries)
    (hids : ((entries.filterMap id).take 20).isEmpty = false)
    (hho : env.hotelOffers = some hlist) :
    searchFlights env fp =
      Except.ok ((offers.take 10).map (mapAmadeusOfferToFlightOption (env.iso 0))) ∧
    searchHotels env hp =
      Except.ok ((providerHotelResults env hp hlist).take 10) ∧
    (∀ l, searchFlights env fp = Except.ok l → l.length ≤ 10) ∧
    (∀ l, searchHotels env hp = Except.ok l → l.length ≤ 10) := by
  have hflights : searchFlights env fp =
      Except.ok ((offers.take 10).map (mapAmadeusOfferToFlightOption (env.iso 0))) := by
    simp [searchFlights, hA, htok, hfo]
  have hhotels : searchHotels env hp =
      Except.ok ((providerHotelResults env hp hlist).take 10) := by
    simp [searchHotels, hA, htok, hres, hby, hids, hho]
  refine ⟨hflights, hhotels, ?_, ?_⟩
  · intro l hl
    rw [hflights] at hl
    injection hl with h
    subst h
    rw [List.length_map, List.length_take]
    exact min_le_left _ _
  · intro l hl
    rw [hhotels] at hl
    injection hl with h
    subst h
    rw [List.length_take]
    exact min_le_left _ _

/-- Witness for C7: the eleven-offer fixture. -/
theorem result_cap_characterization_witness :
    searchFlights credEnvElevenOffers (sfoLisParams (some 100)) =
      Except.ok ((elevenOffers.take 10).map
        (mapAmadeusOfferToFlightOption (credEnvElevenOffers.iso 0))) ∧
    searchHotels credEnvElevenOffers lisHotelParams =
      Except.ok ((providerHotelResults credEnvElevenOffers lisHotelParams []).take 10) := by
  have h := result_cap_characterization credEnvElevenOffers
      (sfoLisParams (some 100)) lisHotelParams "token" elevenOffers
      [some "HLIS"] [] "LIS" (by decide) rfl rfl (by decide) rfl (by decide) rfl
  exact ⟨h.1, h.2.1⟩

/-- Claim C8: every hotel option produced by the provider pipeline comes
from some entry and offer of the response, its display location is the
comma-join of the present city and country fields, and its total is the
explicit total field — or, absent that, the computed average per-night
base — rounded to the nearest whole unit. -/
theorem providerHotel_location_and_total (env : TravelEnv)
    (hp : HotelSearchParams) (list : List HotelEntryJson) :
    ∀ h ∈ providerHotelResults env hp list,
      ∃ entry ∈ list, ∃ offer ∈ entry.offers,
        h.location = joinParts
          (presentParts [entry.hotel.cityName, entry.hotel.countryCode]) ∧
        h.totalUSD = ((jsRound (offer.price.total.getD
          ((offer.price.averageBase.orElse
            fun _ => offer.price.base).getD 0)) : Int) : ℚ) := by
  intro h hmem
  unfold providerHotelResults at hmem
  rcases List.mem_filter.mp hmem with ⟨hmem2, _hok⟩
  rcases List.mem_map.mp hmem2 with ⟨h0, hmem3, rfl⟩
  rcases List.mem_flatMap.mp hmem3 with ⟨entry, hentry, hmem4⟩
  rcases List.mem_map.mp hmem4 with ⟨offer, hoffer, rfl⟩
  exact ⟨entry, hentry, offer, hoffer, rfl, rfl⟩

/-- Witness for C8: the sample entry maps to location "Lisbon, PT" and
total 201. -/
theorem providerHotel_location_and_total_witness :
    sampleMappedHotel.location = "Lisbon, PT" ∧
    sampleMappedHotel.totalUSD = 201 := by
  have hround : ((jsRound (201 : ℚ) : Int) : ℚ) = 201 := by
    norm_num [jsRound]
  have hmem : sampleMappedHotel ∈
      providerHotelResults credEnvElevenOffers lisHotelParams
        [sampleHotelEntry] := by
    simp [providerHotelResults, sampleHotelEntry, sampleHotelInfo,
      sampleHotelOffer, sampleMappedHotel,
      mapAmadeusHotelOfferToHotelOption, ceilingOk, lisHotelParams,
      presentParts, joinParts, hround]
  have h := providerHotel_location_and_total credEnvElevenOffers
      lisHotelParams [sampleHotelEntry] sampleMappedHotel hmem
  rcases h with ⟨entry, hentry, offer, hoffer, hloc, htot⟩
  rw [List.mem_singleton] at hentry
  subst hentry
  simp only [sampleHotelEntry, List.mem_singleton] at hoffer
  subst hoffer
  constructor
  · rw [hloc]; rfl
  · rw [htot]
    show ((jsRound (((201 : ℚ)) : ℚ) : Int) : ℚ) = 201
    exact hround

/-- Claim C9: whenever the token exchange succeeds, neither search throws:
a failed flight-offer search degrades to the mock list (or to the empty
list with mocks disabled), and likewise a failed hotel-offer search on
the full provider path; only the token exchange may fail fatally. -/
theorem provider_failure_degrades_not_fatal (env : TravelEnv)
    (fp : FlightSearchParams) (hp : HotelSearchParams) (tok : String)
    (htok : env.tokenResp = Except.ok tok) :
    (searchFlights env fp).isOk = true ∧
    (searchHotels env hp).isOk = true ∧
    (env.flightOffers = none →
      searchFlights env fp =
        if disableMocksEnv env then Except.ok []
        else Except.ok (mockFlightResults env fp)) ∧
    (∀ code entries, resolveCityToCode env.lookup hp.city = some code →
      env.hotelsByCity = some entries →
      ((entries.filterMap id).take 20).isEmpty = false →
      env.hotelOffers = none →
      searchHotels env hp =
        if disableMocksEnv env then Except.ok []
        else Except.ok (mockHotelResults env hp)) := by
  refine ⟨?_, ?_, ?_, ?_⟩
  · by_cases hA : hasAmadeusEnv env <;> by_cases hdm : disableMocksEnv env <;>
      cases hfo : env.flightOffers <;>
        simp [searchFlights, hA, hdm, htok, hfo, Except.isOk, Except.toBool]
  · have hex : ∃ l, searchHotels env hp = Except.ok l := by
      by_cases hA : hasAmadeusEnv env <;> by_cases hdm : disableMocksEnv env <;>
        cases hres : resolveCityToCode env.lookup hp.city <;>
          cases hby : env.hotelsByCity <;> cases hho : env.hotelOffers <;>
            simp [searchHotels, hA, hdm, htok, hres, hby, hho] <;>
              first
                | exact ⟨_, rfl⟩
                | (split <;> exact ⟨_, rfl⟩)
    rcases hex with ⟨l, hl⟩
    rw [hl]
    rfl
  · intro hfo
    by_cases hA : hasAmadeusEnv env <;> by_cases hdm : disableMocksEnv env <;>
      simp [searchFlights, hA, hdm, htok, hfo]
  · intro code entries hres hby hids hho
    by_cases hA : hasAmadeusEnv env <;> by_cases hdm : disableMocksEnv env <;>
      simp [searchHotels, hA, hdm, htok, hres, hby, hids, hho]

/-- Witness for C9: credentials configured, token good, flight-offer
search down: no error is thrown and the mock list is returned. -/
theorem provider_failure_degrades_witness :
    (searchFlights credEnvOffersDown (sfoLisParams none)).isOk = true ∧
    (searchHotels credEnvOffersDown lisHotelParams).isOk = true ∧
    searchFlights credEnvOffersDown (sfoLisParams none) =
      Except.ok (mockFlightResults credEnvOffersDown (sfoLisParams none)) := by
  have h := provider_failure_degrades_not_fatal credEnvOffersDown
      (sfoLisParams none) lisHotelParams "token" rfl
  refine ⟨h.1, h.2.1, ?_⟩
  have h3 := h.2.2.1 rfl
  rw [show disableMocksEnv credEnvOffersDown = false by decide] at h3
  simpa using h3

/-- Claim C10: the budget estimate's total is passengers times the sum of
flight, hotel (per-night times nights) and activities, with defaults 500,
120, 4, 200 and 1, and the total always equals the sum of the three
breakdown entries. -/
theorem estimateBudget_total_and_breakdown (input : BudgetInput) :
    (estimateBudget input).totalUSD =
      (input.passengers.getD 1) *
        ((input.flightMaxUSD.getD 500) +
          (input.hotelPerNightUSD.getD 120) * (input.nights.getD 4) +
          (input.activitiesUSD.getD 200)) ∧
    (estimateBudget input).breakdown.flight +
        (estimateBudget input).breakdown.hotel +
        (estimateBudget input).breakdown.activities =
      (estimateBudget input).totalUSD := by
  constructor
  · rfl
  · simp only [estimateBudget]
    ring

end AgentsDemo
